import Mathlib

/-!
Verification development for the substrate BEEFY light-client demo.

The repository's own code (mmr.rs, utils.rs, block_generation.rs,
block_data.rs, ethereum_view.rs, ethereum_actor.rs) is shallowly embedded
below.  External collaborators that the source only orchestrates — the
hash function, the deterministic encoder, the signature primitive, the
Merkle-Patricia trie proof primitive, and the MMR library operations
(push / get_root / proof verification) — are kept abstract, passed in as
function parameters with the same shapes the source calls them at; every
theorem quantifies over them.  Fallible external calls are modelled with
Except, and the places where the source unwraps such a Result (a panic on
Err) are modelled by returning none from the embedding.

Machine integers (u64 block numbers, set ids) stay well below 2^64 in this
development, so they are modelled as Nat; 32-byte digests, public keys and
signatures are opaque stand-in values (Nat), with all operations on them
abstract.
-/

set_option autoImplicit false

/-- Byte strings (Vec of u8 in the source), abstracted as lists. -/
abbrev Bytes := List Nat

/-- Stand-in for the opaque 32-byte hash output (types.rs: HashOutput). -/
abbrev HashOut := Nat

/-- Stand-in for an opaque BEEFY authority public key. -/
abbrev AuthorityId := Nat

/-- Stand-in for an opaque authority signature. -/
abbrev AuthoritySignature := Nat

/-- Stand-in for an opaque authority secret key (Pair in the source). -/
abbrev PairSecret := Nat

/-- types.rs: BlockNumber = u64. -/
abbrev BlockNumber := Nat

/-- types.rs: LeafData = (BlockNumber, HashOutput, HashOutput). -/
abbrev LeafData := BlockNumber × HashOut × HashOut

/-- types.rs: TestHeader = sp_runtime::generic::Header carrying a parent
hash, a block number, a state root and an extrinsics root.  The digest
field, always Default in this repository, is omitted. -/
structure TestHeader where
  parent_hash : HashOut
  number : BlockNumber
  state_root : HashOut
  extrinsics_root : HashOut
deriving DecidableEq

/-- mmr.rs: MMRNode, a tagged union of a leaf datum and an opaque digest.
Generic over the leaf type and its digest type, as in the source. -/
inductive MMRNode (Leaf : Type) (Out : Type) where
  | Data : Leaf → MMRNode Leaf Out
  | Hash : Out → MMRNode Leaf Out
deriving DecidableEq

/-- mmr.rs: MMRNode::hash — a Data node hashes its payload, a Hash node
returns the stored digest.  The leaf-payload hash function is the
Hashable instance of the source, kept abstract. -/
def MMRNode.hash {Leaf Out : Type} (leafHash : Leaf → Out) :
    MMRNode Leaf Out → Out
  | .Data l => leafHash l
  | .Hash h => h

/-- mmr.rs: MergeStrategy::merge — concatenates the byte form of the left
digest with the byte form of the right digest and hashes the result.
outBytes models the as_ref() byte view of a digest, H the injected
hasher. -/
def MergeStrategy.merge {Leaf Out : Type} (leafHash : Leaf → Out)
    (outBytes : Out → Bytes) (H : Bytes → Out)
    (left right : MMRNode Leaf Out) : MMRNode Leaf Out :=
  MMRNode.Hash (H (outBytes (left.hash leafHash) ++ outBytes (right.hash leafHash)))

/-- Number of ones in the binary representation (count_ones in the
source's dependency). -/
def countOnes (n : Nat) : Nat := (Nat.bits n).count true

/-- Modelled from the spec: the standard leaf-index-to-size mapping of the
MMR family (mmr_lib::leaf_index_to_mmr_size, not part of this repository):
an MMR holding index+1 leaves occupies 2*(index+1) - countOnes(index+1)
positions. -/
def leafIndexToMmrSize (index : Nat) : Nat :=
  2 * (index + 1) - countOnes (index + 1)

/-- utils.rs: mmr_size_from_number_of_leaves. -/
def mmr_size_from_number_of_leaves (leaves : Nat) : Nat :=
  if leaves = 0 then 0 else leafIndexToMmrSize (leaves - 1)

/-- block_generation.rs: CommitmentPayload, instantiated at LeafData as the
actor uses it. -/
structure CommitmentPayload where
  mmr_node : MMRNode LeafData HashOut
  changed_authority_ids : Option (List AuthorityId)
  new_validator_set_id : Nat
deriving DecidableEq

/-- beefy_primitives::Commitment as this repository instantiates it. -/
structure Commitment where
  payload : CommitmentPayload
  block_number : BlockNumber
  validator_set_id : Nat
deriving DecidableEq

/-- beefy_primitives::SignedCommitment: one optional signature slot per
authority-set position. -/
structure SignedCommitment where
  commitment : Commitment
  signatures : List (Option AuthoritySignature)
deriving DecidableEq

/-- The position loop of block_generation.rs: verify_signed_commitment.
Walks the signature slots and the authority list in lockstep (the source
indexes the authority list; the caller has already checked the lengths
match, which makes the two traversals equivalent).  At each position an
empty slot fails first, then an invalid signature. -/
def checkSignatures (sigVerify : AuthorityId → Bytes → AuthoritySignature → Bool)
    (enc : Bytes) :
    List (Option AuthoritySignature) → List AuthorityId → Except String Unit
  | [], _ => .ok ()
  | none :: _, _ => .error "No signature at a position"
  | some sig :: rest, auth :: auths =>
      if sigVerify auth enc sig then checkSignatures sigVerify enc rest auths
      else .error "Signature is invalid"
  | some _ :: _, [] => .ok ()

/-- block_generation.rs: verify_signed_commitment.  sigVerify is the
external signature primitive (AuthorityId::verify), encodeCommitment the
external deterministic encoder (codec::Encode). -/
def verify_signed_commitment
    (sigVerify : AuthorityId → Bytes → AuthoritySignature → Bool)
    (encodeCommitment : Commitment → Bytes)
    (signed_commitment : SignedCommitment)
    (initial_authorities : List AuthorityId) : Except String Unit :=
  if signed_commitment.signatures.length ≠ initial_authorities.length then
    .error "Number of signatures differ"
  else
    checkSignatures sigVerify (encodeCommitment signed_commitment.commitment)
      signed_commitment.signatures initial_authorities

/-- Whether one signature slot passes at one authority position: present
and valid. -/
def slotOk (sigVerify : AuthorityId → Bytes → AuthoritySignature → Bool)
    (enc : Bytes) (auth : AuthorityId) (slot : Option AuthoritySignature) : Bool :=
  match slot with
  | none => false
  | some s => sigVerify auth enc s

/-- Concrete signature primitive that rejects everything (used by
counterexamples and witnesses). -/
def vfFalse : AuthorityId → Bytes → AuthoritySignature → Bool := fun _ _ _ => false

/-- Concrete signature primitive that accepts everything (used by
witnesses). -/
def vfTrue : AuthorityId → Bytes → AuthoritySignature → Bool := fun _ _ _ => true

/-- Concrete deterministic encoder stand-in (used by counterexamples and
witnesses). -/
def encC : Commitment → Bytes := fun _ => []

theorem checkSignatures_ok_iff (vf : AuthorityId → Bytes → AuthoritySignature → Bool)
    (enc : Bytes) :
    ∀ (sigs : List (Option AuthoritySignature)) (auths : List AuthorityId),
      sigs.length = auths.length →
      (checkSignatures vf enc sigs auths = .ok () ↔
        ∀ pr ∈ sigs.zip auths, slotOk vf enc pr.2 pr.1 = true) := by
  intro sigs
  induction sigs with
  | nil => intro auths _; simp [checkSignatures]
  | cons slot rest ih =>
    intro auths hlen
    cases auths with
    | nil => simp at hlen
    | cons p ps =>
      have hlen2 : rest.length = ps.length := by simpa using hlen
      cases slot with
      | none => simp [checkSignatures, slotOk]
      | some s =>
        by_cases hv : vf p enc s
        · simp [checkSignatures, hv, slotOk, ih ps hlen2]
        · simp [checkSignatures, hv, slotOk]

theorem checkSignatures_first_bad (vf : AuthorityId → Bytes → AuthoritySignature → Bool)
    (enc : Bytes) :
    ∀ (sigs1 : List (Option AuthoritySignature)) (auths1 : List AuthorityId)
      (slot : Option AuthoritySignature) (p : AuthorityId)
      (sigs2 : List (Option AuthoritySignature)) (auths2 : List AuthorityId),
      sigs1.length = auths1.length →
      (∀ pr ∈ sigs1.zip auths1, slotOk vf enc pr.2 pr.1 = true) →
      slotOk vf enc p slot = false →
      checkSignatures vf enc (sigs1 ++ slot :: sigs2) (auths1 ++ p :: auths2) =
        .error (match slot with
          | none => "No signature at a position"
          | some _ => "Signature is invalid") := by
  intro sigs1
  induction sigs1 with
  | nil =>
    intro auths1 slot p sigs2 auths2 hlen _ hbad
    have hnil : auths1 = [] := by
      cases auths1 with
      | nil => rfl
      | cons => simp at hlen
    subst hnil
    cases slot with
    | none => simp [checkSignatures]
    | some s =>
      have hv : vf p enc s = false := by simpa [slotOk] using hbad
      simp [checkSignatures, hv]
  | cons s0 rest ih =>
    intro auths1 slot p sigs2 auths2 hlen hgood hbad
    cases auths1 with
    | nil => simp at hlen
    | cons q qs =>
      have hlen2 : rest.length = qs.length := by simpa using hlen
      have h0 : slotOk vf enc q s0 = true := hgood (s0, q) (by simp)
      cases s0 with
      | none => simp [slotOk] at h0
      | some t =>
        have hv : vf q enc t = true := by simpa [slotOk] using h0
        have hrest : ∀ pr ∈ rest.zip qs, slotOk vf enc pr.2 pr.1 = true := by
          intro pr hpr
          exact hgood pr (by simp [hpr])
        simpa [checkSignatures, hv] using
          ih qs slot p sigs2 auths2 hlen2 hrest hbad

/-- C8: the accumulator merge rule produces the digest of the hash of the
left node's digest concatenated before the right node's digest; a Data
node's digest is the hash of its payload and a Hash node's digest is the
stored digest itself; and the left/right order is significant (there is an
instantiation of the abstract hasher on which swapping the operands
changes the result). -/
theorem merge_is_hash_of_left_then_right_digest :
    (∀ (Leaf Out : Type) (leafHash : Leaf → Out) (outBytes : Out → Bytes)
        (H : Bytes → Out) (left right : MMRNode Leaf Out),
      MergeStrategy.merge leafHash outBytes H left right =
        MMRNode.Hash (H (outBytes (left.hash leafHash) ++ outBytes (right.hash leafHash)))) ∧
    (∀ (Leaf Out : Type) (leafHash : Leaf → Out) (l : Leaf),
      (MMRNode.Data l : MMRNode Leaf Out).hash leafHash = leafHash l) ∧
    (∀ (Leaf Out : Type) (leafHash : Leaf → Out) (h : Out),
      (MMRNode.Hash h : MMRNode Leaf Out).hash leafHash = h) ∧
    (∃ (leafHash : Nat → Nat) (outBytes : Nat → Bytes) (H : Bytes → Nat)
        (left right : MMRNode Nat Nat),
      MergeStrategy.merge leafHash outBytes H left right ≠
        MergeStrategy.merge leafHash outBytes H right left) := by
  refine ⟨fun _ _ _ _ _ _ _ => rfl, fun _ _ _ _ => rfl, fun _ _ _ _ => rfl, ?_⟩
  refine ⟨id, fun n => [n], fun bs => 2 * bs.headD 0 + bs.getD 1 0,
    .Hash 0, .Hash 1, ?_⟩
  decide

/-- C5 (amended): commitment verification fails with the count-mismatch
error when the slot count differs from the authority count; succeeds if
and only if the counts match and every position holds a valid signature
(full unanimity); and otherwise the FIRST offending position (in
position order) decides the error — an empty slot there gives the
missing-signature error, an invalid signature there gives the
invalid-signature error.  (The claim's global priority of MissingSignature
over InvalidSignature does not hold; priority is positional.) -/
theorem verify_signed_commitment_first_offender
    (vf : AuthorityId → Bytes → AuthoritySignature → Bool)
    (encodeCommitment : Commitment → Bytes)
    (sc : SignedCommitment) (auths : List AuthorityId) :
    (sc.signatures.length ≠ auths.length →
      verify_signed_commitment vf encodeCommitment sc auths =
        .error "Number of signatures differ") ∧
    (verify_signed_commitment vf encodeCommitment sc auths = .ok () ↔
      sc.signatures.length = auths.length ∧
        ∀ pr ∈ sc.signatures.zip auths,
          slotOk vf (encodeCommitment sc.commitment) pr.2 pr.1 = true) ∧
    (∀ (sigs1 : List (Option AuthoritySignature)) (slot : Option AuthoritySignature)
        (sigs2 : List (Option AuthoritySignature)) (auths1 : List AuthorityId)
        (p : AuthorityId) (auths2 : List AuthorityId),
      sc.signatures = sigs1 ++ slot :: sigs2 →
      auths = auths1 ++ p :: auths2 →
      sigs1.length = auths1.length →
      sc.signatures.length = auths.length →
      (∀ pr ∈ sigs1.zip auths1,
        slotOk vf (encodeCommitment sc.commitment) pr.2 pr.1 = true) →
      slotOk vf (encodeCommitment sc.commitment) p slot = false →
      verify_signed_commitment vf encodeCommitment sc auths =
        .error (match slot with
          | none => "No signature at a position"
          | some _ => "Signature is invalid")) := by
  refine ⟨fun hne => by simp [verify_signed_commitment, hne], ?_, ?_⟩
  · by_cases hlen : sc.signatures.length = auths.length
    · simp [verify_signed_commitment, hlen,
        checkSignatures_ok_iff vf (encodeCommitment sc.commitment)
          sc.signatures auths hlen]
    · simp [verify_signed_commitment, hlen]
  · intro sigs1 slot sigs2 auths1 p auths2 hs ha hlen1 hlen hgood hbad
    rw [verify_signed_commitment, if_neg (by simp [hlen])]
    rw [hs, ha]
    exact checkSignatures_first_bad vf (encodeCommitment sc.commitment)
      sigs1 auths1 slot p sigs2 auths2 hlen1 hgood hbad

/-- Concrete signed commitment with an invalid signature at position 0 and
an empty slot at position 1. -/
def cexSC : SignedCommitment :=
  { commitment :=
      { payload :=
          { mmr_node := .Hash 0
            changed_authority_ids := none
            new_validator_set_id := 0 }
        block_number := 0
        validator_set_id := 0 }
    signatures := [some 0, none] }

/-- C5 counterexample: with two authorities, an invalid signature at
position 0 and an empty slot at position 1, the slot counts match and a
slot is empty, yet verification fails with the invalid-signature error,
not the missing-signature error the claim's priority would require. -/
theorem verify_signed_commitment_interleaved_cex :
    cexSC.signatures.length = [7, 8].length ∧
    none ∈ cexSC.signatures ∧
    verify_signed_commitment vfFalse encC cexSC [7, 8] =
      .error "Signature is invalid" ∧
    verify_signed_commitment vfFalse encC cexSC [7, 8] ≠
      .error "No signature at a position" := by
  have hres : verify_signed_commitment vfFalse encC cexSC [7, 8] =
      .error "Signature is invalid" := rfl
  refine ⟨rfl, by decide, hres, ?_⟩
  rw [hres]
  intro h
  exact absurd (Except.error.inj h) (by decide)

/-- mmr_lib::util::MemStore at the actor's instantiation: a position-
addressed store of nodes, positions being list indices.  Its contents are
only ever produced and consumed by the abstract MMR library operations. -/
abbrev MemStore := List (MMRNode LeafData HashOut)

/-- ethereum_view.rs: EthereumView — the data a relayer sends to the
verifier. -/
structure EthereumView where
  beefy_mmr_root : MMRNode LeafData HashOut
  beefy_mmr_leaves : Nat
  relay_header : TestHeader
  signed_commitment : Option SignedCommitment
  para_header : TestHeader
  para_header_merkle_proof : List Bytes
  para_header_merkle_root : HashOut
  chosen_kv_proof : List Bytes
  chosen_kv_pair : Bytes × Bytes
deriving DecidableEq

/-- ethereum_actor.rs: the EthereumActor's trust state. -/
structure EthereumActor where
  current_authorities : List AuthorityId
  current_set_id : Nat
  last_finalized_block : Option EthereumView
deriving DecidableEq

/-- ethereum_actor.rs: EthereumActor::new. -/
def EthereumActor.new (initial_authorities : List AuthorityId)
    (current_set_id : Nat) : EthereumActor :=
  { current_authorities := initial_authorities
    current_set_id := current_set_id
    last_finalized_block := none }

/-- ethereum_actor.rs: EthereumActor::ingest_new_header.  The source
mutates self; the embedding returns the Result together with the state
after the call, statement by statement: every early return leaves the
state exactly as it was.  Note the source maps every failure of
verify_signed_commitment to the one fixed error string. -/
def EthereumActor.ingest_new_header
    (sigVerify : AuthorityId → Bytes → AuthoritySignature → Bool)
    (encodeCommitment : Commitment → Bytes)
    (s : EthereumActor) (ethereum_view : EthereumView) :
    Except String Unit × EthereumActor :=
  match ethereum_view.signed_commitment with
  | none => (.error "Cannot ingest a block without signed commitment", s)
  | some signed_commitment =>
    if signed_commitment.commitment.validator_set_id ≠ s.current_set_id then
      (.error "Invalid validator set id", s)
    else
      match verify_signed_commitment sigVerify encodeCommitment
          signed_commitment s.current_authorities with
      | .error _ => (.error "Invalid signature", s)
      | .ok _ =>
        if ethereum_view.relay_header.number ≠
            signed_commitment.commitment.block_number then
          (.error "Invalid block number", s)
        else if ethereum_view.beefy_mmr_root ≠
            signed_commitment.commitment.payload.mmr_node then
          (.error "MMR root not matching to that of block", s)
        else
          let s1 :=
            match signed_commitment.commitment.payload.changed_authority_ids with
            | some ids =>
              { s with
                current_authorities := ids
                current_set_id :=
                  signed_commitment.commitment.payload.new_validator_set_id }
            | none => s
          (.ok (), { s1 with last_finalized_block := some ethereum_view })

/-- block_data.rs: the per-block chain snapshot the generator produces. -/
structure BlockData where
  beefy_mmr_store : MemStore
  beefy_mmr_leaves : Nat
  relay_header : TestHeader
  signed_commitment : Option SignedCommitment
  current_authority_set : List (PairSecret × AuthorityId)
  current_authority_set_id : Nat
  para_header : TestHeader
  encoded_para_head_data : List (HashOut × Bytes)
  para_header_merkle_proof : List Bytes
  para_header_merkle_root : HashOut
  chosen_kv_proof : List Bytes
  chosen_kv_pair : Bytes × Bytes
deriving DecidableEq

/-- block_data.rs: BlockData::ethereum_view.  The view's root field is
recomputed from the snapshot's own store and leaf count through the MMR
library's get_root (abstract parameter mmrGetRoot, taking the size and
the store); the source unwraps the Result, so a get_root failure is a
panic, modelled as none.  The source's encode/decode round trip of the
signed commitment is the identity on the modelled data. -/
def BlockData.ethereum_view
    (mmrGetRoot : Nat → MemStore → Except String (MMRNode LeafData HashOut))
    (bd : BlockData) : Option EthereumView :=
  match mmrGetRoot (mmr_size_from_number_of_leaves bd.beefy_mmr_leaves)
      bd.beefy_mmr_store with
  | .error _ => none
  | .ok root =>
    some
      { beefy_mmr_root := root
        beefy_mmr_leaves := bd.beefy_mmr_leaves
        relay_header := bd.relay_header
        signed_commitment := bd.signed_commitment
        para_header := bd.para_header
        para_header_merkle_proof := bd.para_header_merkle_proof
        para_header_merkle_root := bd.para_header_merkle_root
        chosen_kv_proof := bd.chosen_kv_proof
        chosen_kv_pair := bd.chosen_kv_pair }

/-- ethereum_actor.rs: EthereumActor::verify_claim.  The three layer
primitives are the external collaborators the source calls:
mmrVerify is mmr_lib MerkleProof::new(size, items).verify(root, leaves),
returning Ok(bool) or Err on a corrupt proof; trieVerifyHeads and
trieVerifyStorage are sp_trie::verify_trie_proof at its two key-type
instantiations (header-hash keys and raw byte keys), of which the source
only observes is_err(); headerHash and encodeHeader are the external
header hashing and encoding.  The source unwraps the mmr verification
Result, so an Err there is a panic, modelled as none.  Everything else
returns some of the caller-visible Result. -/
def EthereumActor.verify_claim
    (mmrVerify : Nat → List (MMRNode LeafData HashOut) →
      MMRNode LeafData HashOut → List (Nat × MMRNode LeafData HashOut) →
      Except String Bool)
    (trieVerifyHeads : HashOut → List Bytes → List (HashOut × Option Bytes) → Bool)
    (trieVerifyStorage : HashOut → List Bytes → List (Bytes × Option Bytes) → Bool)
    (headerHash : TestHeader → HashOut)
    (encodeHeader : TestHeader → Bytes)
    (s : EthereumActor)
    (at_relay_block : TestHeader)
    (beefy_mmr_proof_items : List (MMRNode LeafData HashOut))
    (block_pos_in_mmr : Nat)
    (para_block : TestHeader)
    (para_block_inclusion_proof : List Bytes)
    (para_block_merkle_root : HashOut)
    (claimed_kv : Bytes × Bytes)
    (kv_proof : List Bytes) : Option (Except String Unit) :=
  match s.last_finalized_block with
  | none => some (.error "Not ingested a block yet")
  | some last_finalized_block =>
    if last_finalized_block.relay_header.number ≤ at_relay_block.number then
      some (.error "Cannot verify claims for last finalized block or after that block")
    else
      let mmr_root := last_finalized_block.beefy_mmr_root
      let mmr_size :=
        mmr_size_from_number_of_leaves last_finalized_block.beefy_mmr_leaves
      match mmrVerify mmr_size beefy_mmr_proof_items mmr_root
          [(block_pos_in_mmr,
            MMRNode.Data (at_relay_block.number, headerHash at_relay_block,
              para_block_merkle_root))] with
      | .error _ => none
      | .ok false => some (.error "Block does not seems to be finalized")
      | .ok true =>
        if trieVerifyHeads para_block_merkle_root para_block_inclusion_proof
            [(headerHash para_block, some (encodeHeader para_block))] = false then
          some (.error "Unable to verify inclusion of parachain block")
        else if trieVerifyStorage para_block.state_root kv_proof
            [(claimed_kv.1, some claimed_kv.2)] = false then
          some (.error "Unable to verify the storage claim")
        else
          some (.ok ())

/-- block_generation.rs: generate_signed_commitment.  sign is the external
signature primitive (Pair::sign); every validator pair signs the encoded
commitment, in input order, and every slot is filled. -/
def generate_signed_commitment
    (sign : PairSecret → Bytes → AuthoritySignature)
    (encodeCommitment : Commitment → Bytes)
    (set_id : Nat) (block_number : BlockNumber)
    (payload : CommitmentPayload)
    (validator_pairs : List PairSecret) : SignedCommitment :=
  let commitment : Commitment :=
    { payload := payload
      block_number := block_number
      validator_set_id := set_id }
  { commitment := commitment
    signatures :=
      validator_pairs.map (fun k => some (sign k (encodeCommitment commitment))) }

/-- block_generation.rs: create_random_child_block.  The randomness of
generate_random_storage_and_proof is an input (storage_trie_root,
chosen_kv_pair, chosen_kv_proof); the trie building and proof generation
over the para-header set are the external primitives trieRootOf (insert
the entries, read off the root) and genTrieProofFor (generate_trie_proof
for one key); mmrPush is MemMMR::new(size, store) followed by push (its
own unwrap can only fail on a corrupt store, which a generated store
never is, so it is not a modelled failure of this function); mmrGetRoot
is MemMMR::get_root on the post-push accumulator, whose unwrap is a
panic, modelled as none.  The source's two explicit panics (genesis
without an initial authority set, and a new authority set without a
commitment) are modelled as none. -/
def create_random_child_block
    (mmrPush : Nat → MemStore → MMRNode LeafData HashOut → MemStore)
    (mmrGetRoot : Nat → MemStore → Except String (MMRNode LeafData HashOut))
    (headerHash : TestHeader → HashOut)
    (encodeHeader : TestHeader → Bytes)
    (trieRootOf : List (HashOut × Bytes) → HashOut)
    (genTrieProofFor : List (HashOut × Bytes) → HashOut → List Bytes)
    (sign : PairSecret → Bytes → AuthoritySignature)
    (encodeCommitment : Commitment → Bytes)
    (storage_trie_root : HashOut)
    (chosen_kv_pair : Bytes × Bytes)
    (chosen_kv_proof : List Bytes)
    (block_data : Option BlockData)
    (should_generate_commitment : Bool)
    (new_authority_set : Option (List (PairSecret × AuthorityId))) :
    Option BlockData :=
  match block_data with
  | none =>
    match new_authority_set with
    | none => none
    | some initial_authority_set =>
      let genesis_para_header : TestHeader :=
        { parent_hash := 0
          number := 1
          state_root := storage_trie_root
          extrinsics_root := 0 }
      let encoded_para_heads :=
        [(headerHash genesis_para_header, encodeHeader genesis_para_header)]
      let current_para_heads_merkle_root := trieRootOf encoded_para_heads
      let para_heads_merkle_proof :=
        genTrieProofFor encoded_para_heads (headerHash genesis_para_header)
      some
        { chosen_kv_pair := chosen_kv_pair
          chosen_kv_proof := chosen_kv_proof
          beefy_mmr_store := []
          beefy_mmr_leaves := 0
          relay_header :=
            { parent_hash := 0
              number := 1
              state_root := 0
              extrinsics_root := 0 }
          para_header := genesis_para_header
          encoded_para_head_data := encoded_para_heads
          para_header_merkle_proof := para_heads_merkle_proof
          signed_commitment := none
          current_authority_set := initial_authority_set
          current_authority_set_id := 0
          para_header_merkle_root := current_para_heads_merkle_root }
  | some previous_block_data =>
    if new_authority_set.isSome && !should_generate_commitment then none
    else
      let previous_relay_header_hash := headerHash previous_block_data.relay_header
      let previous_relay_header_number := previous_block_data.relay_header.number
      let previous_para_header_hash := headerHash previous_block_data.para_header
      let previous_para_header_number := previous_block_data.para_header.number
      let new_para_header : TestHeader :=
        { parent_hash := previous_para_header_hash
          number := previous_para_header_number + 1
          state_root := storage_trie_root
          extrinsics_root := 0 }
      let encoded_para_heads :=
        previous_block_data.encoded_para_head_data ++
          [(headerHash new_para_header, encodeHeader new_para_header)]
      let previous_para_heads_merkle_root := trieRootOf encoded_para_heads
      let para_heads_merkle_proof :=
        genTrieProofFor encoded_para_heads (headerHash new_para_header)
      let pushed_store :=
        mmrPush
          (mmr_size_from_number_of_leaves previous_block_data.beefy_mmr_leaves)
          previous_block_data.beefy_mmr_store
          (MMRNode.Data (previous_relay_header_number, previous_relay_header_hash,
            previous_para_heads_merkle_root))
      let new_header : TestHeader :=
        { parent_hash := previous_relay_header_hash
          number := previous_relay_header_number + 1
          state_root := 0
          extrinsics_root := 0 }
      let mkChild := fun (msc : Option SignedCommitment) =>
        ({ chosen_kv_pair := chosen_kv_pair
           chosen_kv_proof := chosen_kv_proof
           beefy_mmr_store := pushed_store
           beefy_mmr_leaves := previous_block_data.beefy_mmr_leaves + 1
           relay_header := new_header
           signed_commitment := msc
           current_authority_set_id :=
             match new_authority_set with
             | none => previous_block_data.current_authority_set_id
             | some _ => previous_block_data.current_authority_set_id + 1
           current_authority_set :=
             match new_authority_set with
             | none => previous_block_data.current_authority_set
             | some nas => nas
           para_header := new_para_header
           encoded_para_head_data := encoded_para_heads
           para_header_merkle_proof := para_heads_merkle_proof
           para_header_merkle_root := previous_para_heads_merkle_root } : BlockData)
      if should_generate_commitment then
        match mmrGetRoot
            (mmr_size_from_number_of_leaves
              (previous_block_data.beefy_mmr_leaves + 1)) pushed_store with
        | .error _ => none
        | .ok mmr_root =>
          let signed_commitment :=
            match new_authority_set with
            | none =>
              generate_signed_commitment sign encodeCommitment
                previous_block_data.current_authority_set_id
                (previous_relay_header_number + 1)
                { mmr_node := mmr_root
                  changed_authority_ids := none
                  new_validator_set_id :=
                    previous_block_data.current_authority_set_id }
                (previous_block_data.current_authority_set.map Prod.fst)
            | some nas =>
              generate_signed_commitment sign encodeCommitment
                previous_block_data.current_authority_set_id
                (previous_relay_header_number + 1)
                { mmr_node := mmr_root
                  changed_authority_ids := some (nas.map Prod.snd)
                  new_validator_set_id :=
                    previous_block_data.current_authority_set_id + 1 }
                (previous_block_data.current_authority_set.map Prod.fst)
          some (mkChild (some signed_commitment))
      else
        some (mkChild none)

/-- Case analysis of ingest_new_header: either some check fails and the
call returns an error with the state unchanged, or every check passes and
the call returns ok with the fully replaced trust state. -/
theorem ingest_new_header_cases
    (vf : AuthorityId → Bytes → AuthoritySignature → Bool)
    (enc : Commitment → Bytes) (s : EthereumActor) (v : EthereumView) :
    (∃ e, EthereumActor.ingest_new_header vf enc s v = (.error e, s)) ∨
    (∃ sc, v.signed_commitment = some sc ∧
      EthereumActor.ingest_new_header vf enc s v =
        (.ok (),
          { (match sc.commitment.payload.changed_authority_ids with
             | some ids =>
               { s with
                 current_authorities := ids
                 current_set_id := sc.commitment.payload.new_validator_set_id }
             | none => s) with
            last_finalized_block := some v })) := by
  unfold EthereumActor.ingest_new_header
  split
  · exact .inl ⟨_, rfl⟩
  · rename_i sc hsc
    split
    · exact .inl ⟨_, rfl⟩
    · split
      · exact .inl ⟨_, rfl⟩
      · split
        · exact .inl ⟨_, rfl⟩
        · split
          · exact .inl ⟨_, rfl⟩
          · exact .inr ⟨sc, hsc, rfl⟩

/-- C3: ingest is atomic — an error outcome leaves the trust state exactly
as it was, and a success outcome fully replaces it according to the
commitment (authority set and set id from the payload when a rotation is
declared, otherwise unchanged, and the stored snapshot replaced by the
ingested view). -/
theorem ingest_new_header_atomic
    (vf : AuthorityId → Bytes → AuthoritySignature → Bool)
    (enc : Commitment → Bytes) (s : EthereumActor) (v : EthereumView) :
    (∀ e, (EthereumActor.ingest_new_header vf enc s v).1 = .error e →
      (EthereumActor.ingest_new_header vf enc s v).2 = s) ∧
    ((EthereumActor.ingest_new_header vf enc s v).1 = .ok () →
      ∃ sc, v.signed_commitment = some sc ∧
        (EthereumActor.ingest_new_header vf enc s v).2 =
          { current_authorities :=
              match sc.commitment.payload.changed_authority_ids with
              | some ids => ids
              | none => s.current_authorities
            current_set_id :=
              match sc.commitment.payload.changed_authority_ids with
              | some _ => sc.commitment.payload.new_validator_set_id
              | none => s.current_set_id
            last_finalized_block := some v }) := by
  rcases ingest_new_header_cases vf enc s v with ⟨e, hE⟩ | ⟨sc, hsc, hOk⟩
  · refine ⟨fun e2 _ => by rw [hE], fun h => ?_⟩
    rw [hE] at h
    cases h
  · constructor
    · intro e2 herr
      rw [hOk] at herr
      cases herr
    · intro _
      refine ⟨sc, hsc, ?_⟩
      rw [hOk]
      cases sc.commitment.payload.changed_authority_ids <;> rfl

/-- The check order of ingest_new_header stated on the raw view: each
check is reached only when every earlier check passed, and the call
returns on the first failure with the state unchanged. -/
theorem ingest_new_header_order_raw
    (vf : AuthorityId → Bytes → AuthoritySignature → Bool)
    (enc : Commitment → Bytes) (s : EthereumActor) (v : EthereumView) :
    (v.signed_commitment = none →
      EthereumActor.ingest_new_header vf enc s v =
        (.error "Cannot ingest a block without signed commitment", s)) ∧
    (∀ sc, v.signed_commitment = some sc →
      (sc.commitment.validator_set_id ≠ s.current_set_id →
        EthereumActor.ingest_new_header vf enc s v =
          (.error "Invalid validator set id", s)) ∧
      (sc.commitment.validator_set_id = s.current_set_id →
        ((∃ e, verify_signed_commitment vf enc sc s.current_authorities =
            .error e) →
          EthereumActor.ingest_new_header vf enc s v =
            (.error "Invalid signature", s)) ∧
        (verify_signed_commitment vf enc sc s.current_authorities = .ok () →
          (v.relay_header.number ≠ sc.commitment.block_number →
            EthereumActor.ingest_new_header vf enc s v =
              (.error "Invalid block number", s)) ∧
          (v.relay_header.number = sc.commitment.block_number →
            (v.beefy_mmr_root ≠ sc.commitment.payload.mmr_node →
              EthereumActor.ingest_new_header vf enc s v =
                (.error "MMR root not matching to that of block", s)) ∧
            (v.beefy_mmr_root = sc.commitment.payload.mmr_node →
              (EthereumActor.ingest_new_header vf enc s v).1 = .ok ()))))) := by
  refine ⟨fun hsc => by simp [EthereumActor.ingest_new_header, hsc], ?_⟩
  intro sc hsc
  refine ⟨fun hne => by simp [EthereumActor.ingest_new_header, hsc, hne], ?_⟩
  intro hid
  constructor
  · rintro ⟨e, he⟩
    simp [EthereumActor.ingest_new_header, hsc, hid, he]
  · intro hok
    refine ⟨fun hnum => by
      simp [EthereumActor.ingest_new_header, hsc, hid, hok, hnum], ?_⟩
    intro hnum
    refine ⟨fun hrne => by
      simp [EthereumActor.ingest_new_header, hsc, hid, hok, hnum, hrne], ?_⟩
    intro hreq
    simp [EthereumActor.ingest_new_header, hsc, hid, hok, hnum, hreq]

/-- C2 (amended): for a view projected from a block's snapshot, ingest
applies its checks in exactly this order, returning on the first failure
with the state untouched: MissingCommitment when the view carries no
signed commitment; SetIdMismatch when the commitment's validator set id
differs from the verifier's current set id; a FIXED InvalidSignature
error whenever commitment-scheme verification against the current
authority set fails (the scheme's own error kind is not propagated);
BlockNumberMismatch when the view's header number differs from the
commitment's block number; MmrRootMismatch when the root recomputed from
the view's own store and leaf count differs from the commitment payload's
accumulator root; and success otherwise. -/
theorem ingest_new_header_check_order
    (vf : AuthorityId → Bytes → AuthoritySignature → Bool)
    (enc : Commitment → Bytes)
    (mmrGetRoot : Nat → MemStore → Except String (MMRNode LeafData HashOut))
    (s : EthereumActor) (bd : BlockData) (v : EthereumView)
    (hview : bd.ethereum_view mmrGetRoot = some v) :
    (v.signed_commitment = none →
      EthereumActor.ingest_new_header vf enc s v =
        (.error "Cannot ingest a block without signed commitment", s)) ∧
    (∀ sc, v.signed_commitment = some sc →
      (sc.commitment.validator_set_id ≠ s.current_set_id →
        EthereumActor.ingest_new_header vf enc s v =
          (.error "Invalid validator set id", s)) ∧
      (sc.commitment.validator_set_id = s.current_set_id →
        ((∃ e, verify_signed_commitment vf enc sc s.current_authorities =
            .error e) →
          EthereumActor.ingest_new_header vf enc s v =
            (.error "Invalid signature", s)) ∧
        (verify_signed_commitment vf enc sc s.current_authorities = .ok () →
          (v.relay_header.number ≠ sc.commitment.block_number →
            EthereumActor.ingest_new_header vf enc s v =
              (.error "Invalid block number", s)) ∧
          (v.relay_header.number = sc.commitment.block_number →
            (mmrGetRoot (mmr_size_from_number_of_leaves bd.beefy_mmr_leaves)
                bd.beefy_mmr_store ≠ .ok sc.commitment.payload.mmr_node →
              EthereumActor.ingest_new_header vf enc s v =
                (.error "MMR root not matching to that of block", s)) ∧
            (mmrGetRoot (mmr_size_from_number_of_leaves bd.beefy_mmr_leaves)
                bd.beefy_mmr_store = .ok sc.commitment.payload.mmr_node →
              (EthereumActor.ingest_new_header vf enc s v).1 = .ok ()))))) := by
  have hgr : mmrGetRoot (mmr_size_from_number_of_leaves bd.beefy_mmr_leaves)
      bd.beefy_mmr_store = .ok v.beefy_mmr_root := by
    unfold BlockData.ethereum_view at hview
    cases hroot : mmrGetRoot (mmr_size_from_number_of_leaves bd.beefy_mmr_leaves)
        bd.beefy_mmr_store with
    | error e0 =>
      rw [hroot] at hview
      cases hview
    | ok root =>
      rw [hroot] at hview
      have hv := Option.some.inj hview
      rw [← hv]
  obtain ⟨c1, rest⟩ := ingest_new_header_order_raw vf enc s v
  refine ⟨c1, ?_⟩
  intro sc hsc
  obtain ⟨c2, rest2⟩ := rest sc hsc
  refine ⟨c2, ?_⟩
  intro hid
  obtain ⟨c3, rest3⟩ := rest2 hid
  refine ⟨c3, ?_⟩
  intro hok
  obtain ⟨c4, rest4⟩ := rest3 hok
  refine ⟨c4, ?_⟩
  intro hnum
  obtain ⟨c5, c6⟩ := rest4 hnum
  constructor
  · intro hgne
    apply c5
    intro h
    exact hgne (by rw [hgr, h])
  · intro hgeq
    exact c6 (Except.ok.inj (hgr.symm.trans hgeq))

/-- Concrete get_root stand-in returning one fixed digest (used by
counterexamples and witnesses). -/
def rootOk0 : Nat → MemStore → Except String (MMRNode LeafData HashOut) :=
  fun _ _ => .ok (.Hash 0)

/-- A header with the given number and defaulted other fields (used by
counterexamples and witnesses). -/
def mkTestHeader (n : Nat) : TestHeader :=
  { parent_hash := 0
    number := n
    state_root := 0
    extrinsics_root := 0 }

/-- A view with the given relay header number and signed commitment, all
other fields fixed (used by counterexamples and witnesses). -/
def mkView (n : Nat) (msc : Option SignedCommitment) : EthereumView :=
  { beefy_mmr_root := .Hash 0
    beefy_mmr_leaves := 1
    relay_header := mkTestHeader n
    signed_commitment := msc
    para_header := mkTestHeader 1
    para_header_merkle_proof := []
    para_header_merkle_root := 0
    chosen_kv_proof := []
    chosen_kv_pair := ([], []) }

/-- A snapshot whose view projection under rootOk0 is
mkView n (some sc) (used by counterexamples and witnesses). -/
def mkBD (n : Nat) (sc : SignedCommitment) : BlockData :=
  { beefy_mmr_store := []
    beefy_mmr_leaves := 1
    relay_header := mkTestHeader n
    signed_commitment := some sc
    current_authority_set := [(0, 9)]
    current_authority_set_id := 0
    para_header := mkTestHeader 1
    encoded_para_head_data := []
    para_header_merkle_proof := []
    para_header_merkle_root := 0
    chosen_kv_proof := []
    chosen_kv_pair := ([], []) }

/-- A signed commitment for block 2, set id 0, with the given payload
contents and signature slots. -/
def mkSC (changed : Option (List AuthorityId)) (newId : Nat)
    (sigs : List (Option AuthoritySignature)) : SignedCommitment :=
  { commitment :=
      { payload :=
          { mmr_node := .Hash 0
            changed_authority_ids := changed
            new_validator_set_id := newId }
        block_number := 2
        validator_set_id := 0 }
    signatures := sigs }

/-- A verifier freshly constructed with one authority and set id 0. -/
def wActor : EthereumActor := EthereumActor.new [9] 0

/-- A commitment carrying one signature slot against an empty authority
set, so that scheme verification fails with the count-mismatch error. -/
def cexSCcount : SignedCommitment := mkSC none 0 [some 0]

/-- A verifier with an empty authority set. -/
def cexActorEmpty : EthereumActor := EthereumActor.new [] 0

/-- C2 counterexample: a view (projected from its snapshot through the MMR
root recomputation) whose commitment makes scheme verification fail with
the count-mismatch error; ingest does not return that commitment-scheme
error, it returns the fixed invalid-signature error instead, so the
error kind is not propagated as the claim states. -/
theorem ingest_new_header_fixed_error_cex :
    (mkBD 2 cexSCcount).ethereum_view rootOk0 =
      some (mkView 2 (some cexSCcount)) ∧
    verify_signed_commitment vfTrue encC cexSCcount
      cexActorEmpty.current_authorities = .error "Number of signatures differ" ∧
    cexSCcount.commitment.validator_set_id = cexActorEmpty.current_set_id ∧
    (EthereumActor.ingest_new_header vfTrue encC cexActorEmpty
        (mkView 2 (some cexSCcount))).1 = .error "Invalid signature" ∧
    (EthereumActor.ingest_new_header vfTrue encC cexActorEmpty
        (mkView 2 (some cexSCcount))).1 ≠
      .error "Number of signatures differ" := by
  refine ⟨rfl, rfl, rfl, rfl, ?_⟩
  intro h
  have h2 : (Except.error "Invalid signature" : Except String Unit) =
      .error "Number of signatures differ" := by
    rw [← h]
    rfl
  exact absurd (Except.error.inj h2) (by decide)

/-- A commitment for block 2 under set id 0 that rotates the authority set
to authorities 5 and 6 with new set id 1, with one filled signature slot. -/
def wSCrot : SignedCommitment := mkSC (some [5, 6]) 1 [some 0]

/-- A commitment for block 2 under set id 0 with no rotation declared and
a deliberately distinct new_validator_set_id, with one filled slot. -/
def wSCnorot : SignedCommitment := mkSC none 77 [some 0]

/-- C2 witness: on a concrete snapshot whose projected view passes every
check, ingest succeeds. -/
theorem ingest_new_header_check_order_witness :
    (EthereumActor.ingest_new_header vfTrue encC wActor
        (mkView 2 (some wSCnorot))).1 = .ok () := by
  exact ((((((ingest_new_header_check_order vfTrue encC rootOk0 wActor
    (mkBD 2 wSCnorot) (mkView 2 (some wSCnorot)) rfl).2 wSCnorot rfl).2
    rfl).2 rfl).2 rfl).2 rfl)

/-- C6: when a successful ingest carries a declared rotation, the verifier
installs the declared authority list and the payload's
new_validator_set_id together and stores the ingested view as the new
snapshot; consequently (given that the installed set id differs from the
old one, as the monotone id lifecycle guarantees) replaying a commitment
still signed under the old set id fails with the set-id-mismatch error and
leaves the rotated state untouched. -/
theorem ingest_rotation_installs_new_set
    (vf : AuthorityId → Bytes → AuthoritySignature → Bool)
    (enc : Commitment → Bytes) (s : EthereumActor) (v : EthereumView)
    (sc : SignedCommitment) (ids : List AuthorityId)
    (hsc : v.signed_commitment = some sc)
    (hch : sc.commitment.payload.changed_authority_ids = some ids)
    (hok : (EthereumActor.ingest_new_header vf enc s v).1 = .ok ()) :
    (EthereumActor.ingest_new_header vf enc s v).2 =
      { current_authorities := ids
        current_set_id := sc.commitment.payload.new_validator_set_id
        last_finalized_block := some v } ∧
    (∀ (v2 : EthereumView) (sc2 : SignedCommitment),
      v2.signed_commitment = some sc2 →
      sc2.commitment.validator_set_id = s.current_set_id →
      sc.commitment.payload.new_validator_set_id ≠ s.current_set_id →
      EthereumActor.ingest_new_header vf enc
          (EthereumActor.ingest_new_header vf enc s v).2 v2 =
        (.error "Invalid validator set id",
          (EthereumActor.ingest_new_header vf enc s v).2)) := by
  rcases ingest_new_header_cases vf enc s v with ⟨e, hE⟩ | ⟨sc', hsc', hOk⟩
  · rw [hE] at hok
    cases hok
  · obtain rfl : sc = sc' := Option.some.inj (hsc.symm.trans hsc')
    have hstate : (EthereumActor.ingest_new_header vf enc s v).2 =
        { current_authorities := ids
          current_set_id := sc.commitment.payload.new_validator_set_id
          last_finalized_block := some v } := by
      rw [hOk]
      simp only [hch]
    refine ⟨hstate, ?_⟩
    intro v2 sc2 hsc2 hvsi hne
    rw [hstate]
    simp [EthereumActor.ingest_new_header, hsc2, hvsi, Ne.symm hne]

/-- C6 witness: a concrete rotation to authorities 5 and 6 with new set
id 1 is installed, and replaying the same commitment (still under set id
0) fails with the set-id-mismatch error. -/
theorem ingest_rotation_witness :
    (EthereumActor.ingest_new_header vfTrue encC wActor
        (mkView 2 (some wSCrot))).2 =
      { current_authorities := [5, 6]
        current_set_id := 1
        last_finalized_block := some (mkView 2 (some wSCrot)) } ∧
    EthereumActor.ingest_new_header vfTrue encC
        (EthereumActor.ingest_new_header vfTrue encC wActor
          (mkView 2 (some wSCrot))).2 (mkView 2 (some wSCrot)) =
      (.error "Invalid validator set id",
        (EthereumActor.ingest_new_header vfTrue encC wActor
          (mkView 2 (some wSCrot))).2) := by
  have h := ingest_rotation_installs_new_set vfTrue encC wActor
    (mkView 2 (some wSCrot)) wSCrot [5, 6] rfl rfl rfl
  exact ⟨h.1, h.2 (mkView 2 (some wSCrot)) wSCrot rfl rfl (by decide)⟩

/-- C10: when a successful ingest carries no declared rotation, the
authority set and the set id are kept exactly as they were — the
payload's new_validator_set_id is ignored — and only the stored snapshot
is replaced by the ingested view. -/
theorem ingest_no_rotation_preserves_trust
    (vf : AuthorityId → Bytes → AuthoritySignature → Bool)
    (enc : Commitment → Bytes) (s : EthereumActor) (v : EthereumView)
    (sc : SignedCommitment)
    (hsc : v.signed_commitment = some sc)
    (hch : sc.commitment.payload.changed_authority_ids = none)
    (hok : (EthereumActor.ingest_new_header vf enc s v).1 = .ok ()) :
    (EthereumActor.ingest_new_header vf enc s v).2 =
      { current_authorities := s.current_authorities
        current_set_id := s.current_set_id
        last_finalized_block := some v } := by
  rcases ingest_new_header_cases vf enc s v with ⟨e, hE⟩ | ⟨sc', hsc', hOk⟩
  · rw [hE] at hok
    cases hok
  · obtain rfl : sc = sc' := Option.some.inj (hsc.symm.trans hsc')
    rw [hOk]
    simp only [hch]

/-- C10 witness: ingesting a concrete commitment with no rotation and a
payload new_validator_set_id of 77 keeps the authority set and set id, and
replaces only the snapshot. -/
theorem ingest_no_rotation_witness :
    (EthereumActor.ingest_new_header vfTrue encC wActor
        (mkView 2 (some wSCnorot))).2 =
      { current_authorities := [9]
        current_set_id := 0
        last_finalized_block := some (mkView 2 (some wSCnorot)) } := by
  exact ingest_no_rotation_preserves_trust vfTrue encC wActor
    (mkView 2 (some wSCnorot)) wSCnorot rfl rfl rfl

/-- Two distinct error strings wrapped the same way are distinct claim
outcomes. -/
theorem some_error_ne (a b : String) (h : a ≠ b) :
    (some (.error a) : Option (Except String Unit)) ≠ some (.error b) := by
  intro h2
  exact h (Except.error.inj (Option.some.inj h2))

/-- C4: verify_claim fails with NotIngestedYet whenever no view has ever
been ingested, regardless of the other arguments; and with a stored
snapshot it fails with BlockNotBeforeFinalized unless the target header's
number is strictly below the snapshot's relay header number — in
particular a claim against the last finalized block itself fails — while
a strictly earlier target never produces that error. -/
theorem verify_claim_preamble
    (mmrV : Nat → List (MMRNode LeafData HashOut) → MMRNode LeafData HashOut →
      List (Nat × MMRNode LeafData HashOut) → Except String Bool)
    (trieH : HashOut → List Bytes → List (HashOut × Option Bytes) → Bool)
    (trieB : HashOut → List Bytes → List (Bytes × Option Bytes) → Bool)
    (hh : TestHeader → HashOut) (eh : TestHeader → Bytes)
    (s : EthereumActor) (at_relay_block : TestHeader)
    (items : List (MMRNode LeafData HashOut)) (pos : Nat)
    (para_block : TestHeader) (incl : List Bytes) (proot : HashOut)
    (claimed_kv : Bytes × Bytes) (kvp : List Bytes) :
    (s.last_finalized_block = none →
      EthereumActor.verify_claim mmrV trieH trieB hh eh s at_relay_block items
          pos para_block incl proot claimed_kv kvp =
        some (.error "Not ingested a block yet")) ∧
    (∀ last, s.last_finalized_block = some last →
      (last.relay_header.number ≤ at_relay_block.number →
        EthereumActor.verify_claim mmrV trieH trieB hh eh s at_relay_block items
            pos para_block incl proot claimed_kv kvp =
          some (.error
            "Cannot verify claims for last finalized block or after that block")) ∧
      (at_relay_block.number = last.relay_header.number →
        EthereumActor.verify_claim mmrV trieH trieB hh eh s at_relay_block items
            pos para_block incl proot claimed_kv kvp =
          some (.error
            "Cannot verify claims for last finalized block or after that block")) ∧
      (at_relay_block.number < last.relay_header.number →
        EthereumActor.verify_claim mmrV trieH trieB hh eh s at_relay_block items
            pos para_block incl proot claimed_kv kvp ≠
          some (.error
            "Cannot verify claims for last finalized block or after that block"))) := by
  refine ⟨fun h => by simp [EthereumActor.verify_claim, h], ?_⟩
  intro last hlast
  refine ⟨fun hle => by simp [EthereumActor.verify_claim, hlast, hle],
    fun heq => by simp [EthereumActor.verify_claim, hlast, Nat.le_of_eq heq.symm], ?_⟩
  intro hlt
  simp only [EthereumActor.verify_claim, hlast]
  rw [if_neg (not_le.mpr hlt)]
  split
  · simp
  · exact some_error_ne _ _ (by decide)
  · split
    · exact some_error_ne _ _ (by decide)
    · split
      · exact some_error_ne _ _ (by decide)
      · intro h2
        cases Option.some.inj h2

/-- C1: once the preamble passes, verify_claim checks the three proof
layers strictly in order — the accumulator proof against the trusted root
at the leaf (target_position, Data(relay number, relay hash, secondary
header set root)), then the secondary header's inclusion proof against
the secondary header set root, then the key/value proof against the
secondary header's state root — returning the error of the first failing
layer.  The later layer primitives are universally quantified and
unconstrained in the earlier-failure clauses, so an earlier failure
decides the outcome whatever the later layers would say; and the call
succeeds if and only if all three layers verify. -/
theorem verify_claim_checks_layers_in_order
    (mmrV : Nat → List (MMRNode LeafData HashOut) → MMRNode LeafData HashOut →
      List (Nat × MMRNode LeafData HashOut) → Except String Bool)
    (trieH : HashOut → List Bytes → List (HashOut × Option Bytes) → Bool)
    (trieB : HashOut → List Bytes → List (Bytes × Option Bytes) → Bool)
    (hh : TestHeader → HashOut) (eh : TestHeader → Bytes)
    (s : EthereumActor) (last : EthereumView) (at_relay_block : TestHeader)
    (items : List (MMRNode LeafData HashOut)) (pos : Nat)
    (para_block : TestHeader) (incl : List Bytes) (proot : HashOut)
    (claimed_kv : Bytes × Bytes) (kvp : List Bytes)
    (hlast : s.last_finalized_block = some last)
    (hpre : at_relay_block.number < last.relay_header.number) :
    (mmrV (mmr_size_from_number_of_leaves last.beefy_mmr_leaves) items
        last.beefy_mmr_root
        [(pos, MMRNode.Data (at_relay_block.number, hh at_relay_block, proot))] =
          .ok false →
      EthereumActor.verify_claim mmrV trieH trieB hh eh s at_relay_block items
          pos para_block incl proot claimed_kv kvp =
        some (.error "Block does not seems to be finalized")) ∧
    (mmrV (mmr_size_from_number_of_leaves last.beefy_mmr_leaves) items
        last.beefy_mmr_root
        [(pos, MMRNode.Data (at_relay_block.number, hh at_relay_block, proot))] =
          .ok true →
      trieH proot incl [(hh para_block, some (eh para_block))] = false →
      EthereumActor.verify_claim mmrV trieH trieB hh eh s at_relay_block items
          pos para_block incl proot claimed_kv kvp =
        some (.error "Unable to verify inclusion of parachain block")) ∧
    (mmrV (mmr_size_from_number_of_leaves last.beefy_mmr_leaves) items
        last.beefy_mmr_root
        [(pos, MMRNode.Data (at_relay_block.number, hh at_relay_block, proot))] =
          .ok true →
      trieH proot incl [(hh para_block, some (eh para_block))] = true →
      trieB para_block.state_root kvp [(claimed_kv.1, some claimed_kv.2)] = false →
      EthereumActor.verify_claim mmrV trieH trieB hh eh s at_relay_block items
          pos para_block incl proot claimed_kv kvp =
        some (.error "Unable to verify the storage claim")) ∧
    (EthereumActor.verify_claim mmrV trieH trieB hh eh s at_relay_block items
        pos para_block incl proot claimed_kv kvp = some (.ok ()) ↔
      mmrV (mmr_size_from_number_of_leaves last.beefy_mmr_leaves) items
        last.beefy_mmr_root
        [(pos, MMRNode.Data (at_relay_block.number, hh at_relay_block, proot))] =
          .ok true ∧
      trieH proot incl [(hh para_block, some (eh para_block))] = true ∧
      trieB para_block.state_root kvp [(claimed_kv.1, some claimed_kv.2)] = true) := by
  refine ⟨fun hm => by
      simp [EthereumActor.verify_claim, hlast, not_le.mpr hpre, hm],
    fun hm ht => by
      simp [EthereumActor.verify_claim, hlast, not_le.mpr hpre, hm, ht],
    fun hm ht hb => by
      simp [EthereumActor.verify_claim, hlast, not_le.mpr hpre, hm, ht, hb], ?_⟩
  constructor
  · intro hres
    simp only [EthereumActor.verify_claim, hlast] at hres
    rw [if_neg (not_le.mpr hpre)] at hres
    cases hm : mmrV (mmr_size_from_number_of_leaves last.beefy_mmr_leaves) items
        last.beefy_mmr_root
        [(pos, MMRNode.Data (at_relay_block.number, hh at_relay_block, proot))] with
    | error e =>
      rw [hm] at hres
      simp at hres
    | ok b =>
      rw [hm] at hres
      cases b with
      | false => simp at hres
      | true =>
        refine ⟨rfl, ?_⟩
        cases ht : trieH proot incl [(hh para_block, some (eh para_block))] with
        | false =>
          rw [ht] at hres
          simp at hres
        | true =>
          rw [ht] at hres
          refine ⟨rfl, ?_⟩
          cases hb : trieB para_block.state_root kvp
              [(claimed_kv.1, some claimed_kv.2)] with
          | false =>
            rw [hb] at hres
            simp at hres
          | true => rfl
  · rintro ⟨hm, ht, hb⟩
    simp [EthereumActor.verify_claim, hlast, not_le.mpr hpre, hm, ht, hb]

/-- Concrete layer primitives for witnesses: an accumulator verifier that
accepts, one that signals a corrupt proof, and trie verifiers that
accept. -/
def mmrVTrue : Nat → List (MMRNode LeafData HashOut) → MMRNode LeafData HashOut →
    List (Nat × MMRNode LeafData HashOut) → Except String Bool :=
  fun _ _ _ _ => .ok true

/-- Accumulator verifier stand-in that signals a corrupt proof, as the MMR
library does on malformed or insufficient proof items. -/
def mmrVCorrupt : Nat → List (MMRNode LeafData HashOut) → MMRNode LeafData HashOut →
    List (Nat × MMRNode LeafData HashOut) → Except String Bool :=
  fun _ _ _ _ => .error "corrupted proof"

/-- Trie verifier stand-in (header-set layer) that accepts. -/
def trieHTrue : HashOut → List Bytes → List (HashOut × Option Bytes) → Bool :=
  fun _ _ _ => true

/-- Trie verifier stand-in (storage layer) that accepts. -/
def trieBTrue : HashOut → List Bytes → List (Bytes × Option Bytes) → Bool :=
  fun _ _ _ => true

/-- Header hash stand-in for witnesses. -/
def hh0 : TestHeader → HashOut := fun _ => 0

/-- Header encoder stand-in for witnesses. -/
def eh0 : TestHeader → Bytes := fun _ => []

/-- A verifier that has ingested a snapshot at relay number 2. -/
def wActorIngested : EthereumActor :=
  { current_authorities := [9]
    current_set_id := 0
    last_finalized_block := some (mkView 2 (some wSCnorot)) }

/-- C1 witness: with every layer accepting and a target strictly before
the snapshot, a concrete claim verifies. -/
theorem verify_claim_layers_witness :
    EthereumActor.verify_claim mmrVTrue trieHTrue trieBTrue hh0 eh0
      wActorIngested (mkTestHeader 1) [] 0 (mkTestHeader 1) [] 0 ([], []) [] =
      some (.ok ()) := by
  exact (verify_claim_checks_layers_in_order mmrVTrue trieHTrue trieBTrue hh0 eh0
    wActorIngested (mkView 2 (some wSCnorot)) (mkTestHeader 1) [] 0
    (mkTestHeader 1) [] 0 ([], []) [] rfl (by decide)).2.2.2.mpr ⟨rfl, rfl, rfl⟩

/-- C7: when the accumulator library signals a corrupt proof (as it does
for malformed or insufficient caller-supplied proof items), verify_claim
does not return a recoverable error: the source unwraps the Result, which
is a process abort, modelled as none. -/
theorem verify_claim_aborts_on_corrupt_proof
    (mmrV : Nat → List (MMRNode LeafData HashOut) → MMRNode LeafData HashOut →
      List (Nat × MMRNode LeafData HashOut) → Except String Bool)
    (trieH : HashOut → List Bytes → List (HashOut × Option Bytes) → Bool)
    (trieB : HashOut → List Bytes → List (Bytes × Option Bytes) → Bool)
    (hh : TestHeader → HashOut) (eh : TestHeader → Bytes)
    (s : EthereumActor) (last : EthereumView) (at_relay_block : TestHeader)
    (items : List (MMRNode LeafData HashOut)) (pos : Nat)
    (para_block : TestHeader) (incl : List Bytes) (proot : HashOut)
    (claimed_kv : Bytes × Bytes) (kvp : List Bytes) (e : String)
    (hlast : s.last_finalized_block = some last)
    (hpre : at_relay_block.number < last.relay_header.number)
    (herr : mmrV (mmr_size_from_number_of_leaves last.beefy_mmr_leaves) items
        last.beefy_mmr_root
        [(pos, MMRNode.Data (at_relay_block.number, hh at_relay_block, proot))] =
          .error e) :
    EthereumActor.verify_claim mmrV trieH trieB hh eh s at_relay_block items
      pos para_block incl proot claimed_kv kvp = none := by
  simp [EthereumActor.verify_claim, hlast, not_le.mpr hpre, herr]

/-- C7 witness: a concrete claim input whose proof items make the
accumulator library report a corrupt proof aborts the call (none) even
though the preamble checks pass. -/
theorem verify_claim_aborts_witness :
    EthereumActor.verify_claim mmrVCorrupt trieHTrue trieBTrue hh0 eh0
      wActorIngested (mkTestHeader 1) [] 0 (mkTestHeader 1) [] 0 ([], []) [] =
      none := by
  exact verify_claim_aborts_on_corrupt_proof mmrVCorrupt trieHTrue trieBTrue hh0
    eh0 wActorIngested (mkView 2 (some wSCnorot)) (mkTestHeader 1) [] 0
    (mkTestHeader 1) [] 0 ([], []) [] "corrupted proof" rfl (by decide) rfl

/-- Fields of a generated child snapshot: its store is the parent's store
with exactly one leaf pushed, carrying the parent relay header's number
and hash (and the recomputed para-header-set root); its leaf count is the
parent's plus one; and its relay header number is the parent's plus
one. -/
theorem create_child_fields
    (mmrPush : Nat → MemStore → MMRNode LeafData HashOut → MemStore)
    (mmrGetRoot : Nat → MemStore → Except String (MMRNode LeafData HashOut))
    (headerHash : TestHeader → HashOut) (encodeHeader : TestHeader → Bytes)
    (trieRootOf : List (HashOut × Bytes) → HashOut)
    (genTrieProofFor : List (HashOut × Bytes) → HashOut → List Bytes)
    (sign : PairSecret → Bytes → AuthoritySignature)
    (encodeCommitment : Commitment → Bytes)
    (storage_trie_root : HashOut) (ckv : Bytes × Bytes) (ckp : List Bytes)
    (flag : Bool) (nas : Option (List (PairSecret × AuthorityId)))
    (prev child : BlockData)
    (hchild : create_random_child_block mmrPush mmrGetRoot headerHash
      encodeHeader trieRootOf genTrieProofFor sign encodeCommitment
      storage_trie_root ckv ckp (some prev) flag nas = some child) :
    (∃ para_root, child.beefy_mmr_store =
      mmrPush (mmr_size_from_number_of_leaves prev.beefy_mmr_leaves)
        prev.beefy_mmr_store
        (MMRNode.Data (prev.relay_header.number, headerHash prev.relay_header,
          para_root))) ∧
    child.beefy_mmr_leaves = prev.beefy_mmr_leaves + 1 ∧
    child.relay_header.number = prev.relay_header.number + 1 := by
  simp only [create_random_child_block] at hchild
  split at hchild
  · cases hchild
  · split at hchild
    · split at hchild
      · cases hchild
      · obtain rfl := Option.some.inj hchild
        exact ⟨⟨_, rfl⟩, rfl, rfl⟩
    · obtain rfl := Option.some.inj hchild
      exact ⟨⟨_, rfl⟩, rfl, rfl⟩

/-- Fields of a generated genesis snapshot: an empty accumulator and relay
header number 1. -/
theorem create_genesis_fields
    (mmrPush : Nat → MemStore → MMRNode LeafData HashOut → MemStore)
    (mmrGetRoot : Nat → MemStore → Except String (MMRNode LeafData HashOut))
    (headerHash : TestHeader → HashOut) (encodeHeader : TestHeader → Bytes)
    (trieRootOf : List (HashOut × Bytes) → HashOut)
    (genTrieProofFor : List (HashOut × Bytes) → HashOut → List Bytes)
    (sign : PairSecret → Bytes → AuthoritySignature)
    (encodeCommitment : Commitment → Bytes)
    (storage_trie_root : HashOut) (ckv : Bytes × Bytes) (ckp : List Bytes)
    (flag : Bool) (auths : List (PairSecret × AuthorityId)) (bd : BlockData)
    (hbd : create_random_child_block mmrPush mmrGetRoot headerHash
      encodeHeader trieRootOf genTrieProofFor sign encodeCommitment
      storage_trie_root ckv ckp none flag (some auths) = some bd) :
    bd.beefy_mmr_store = [] ∧ bd.beefy_mmr_leaves = 0 ∧
      bd.relay_header.number = 1 := by
  simp only [create_random_child_block] at hbd
  obtain rfl := Option.some.inj hbd
  exact ⟨rfl, rfl, rfl⟩

/-- The snapshots the generator can produce: a genesis (from an initial
authority set) or a child of a previously generated snapshot, under one
fixed family of external primitives and arbitrary per-step randomness. -/
inductive GeneratedBlock
    (mmrPush : Nat → MemStore → MMRNode LeafData HashOut → MemStore)
    (mmrGetRoot : Nat → MemStore → Except String (MMRNode LeafData HashOut))
    (headerHash : TestHeader → HashOut) (encodeHeader : TestHeader → Bytes)
    (trieRootOf : List (HashOut × Bytes) → HashOut)
    (genTrieProofFor : List (HashOut × Bytes) → HashOut → List Bytes)
    (sign : PairSecret → Bytes → AuthoritySignature)
    (encodeCommitment : Commitment → Bytes) : BlockData → Prop where
  | genesis (storage_trie_root : HashOut) (ckv : Bytes × Bytes)
      (ckp : List Bytes) (flag : Bool)
      (auths : List (PairSecret × AuthorityId)) (bd : BlockData) :
      create_random_child_block mmrPush mmrGetRoot headerHash encodeHeader
        trieRootOf genTrieProofFor sign encodeCommitment storage_trie_root
        ckv ckp none flag (some auths) = some bd →
      GeneratedBlock mmrPush mmrGetRoot headerHash encodeHeader trieRootOf
        genTrieProofFor sign encodeCommitment bd
  | child (storage_trie_root : HashOut) (ckv : Bytes × Bytes)
      (ckp : List Bytes) (flag : Bool)
      (nas : Option (List (PairSecret × AuthorityId))) (prev bd : BlockData) :
      GeneratedBlock mmrPush mmrGetRoot headerHash encodeHeader trieRootOf
        genTrieProofFor sign encodeCommitment prev →
      create_random_child_block mmrPush mmrGetRoot headerHash encodeHeader
        trieRootOf genTrieProofFor sign encodeCommitment storage_trie_root
        ckv ckp (some prev) flag nas = some bd →
      GeneratedBlock mmrPush mmrGetRoot headerHash encodeHeader trieRootOf
        genTrieProofFor sign encodeCommitment bd

/-- C9: every child the generator produces carries the parent's
accumulator with exactly one pushed leaf describing the parent (the leaf
holds the parent relay header's number and hash), a leaf count one above
the parent's and a relay header number one above the parent's; hence
every generated snapshot satisfies the lag invariant
leaf_count = relay_header.number - 1. -/
theorem generator_child_accumulator_and_lag
    (mmrPush : Nat → MemStore → MMRNode LeafData HashOut → MemStore)
    (mmrGetRoot : Nat → MemStore → Except String (MMRNode LeafData HashOut))
    (headerHash : TestHeader → HashOut) (encodeHeader : TestHeader → Bytes)
    (trieRootOf : List (HashOut × Bytes) → HashOut)
    (genTrieProofFor : List (HashOut × Bytes) → HashOut → List Bytes)
    (sign : PairSecret → Bytes → AuthoritySignature)
    (encodeCommitment : Commitment → Bytes) :
    (∀ (storage_trie_root : HashOut) (ckv : Bytes × Bytes) (ckp : List Bytes)
        (flag : Bool) (nas : Option (List (PairSecret × AuthorityId)))
        (prev child : BlockData),
      create_random_child_block mmrPush mmrGetRoot headerHash encodeHeader
        trieRootOf genTrieProofFor sign encodeCommitment storage_trie_root
        ckv ckp (some prev) flag nas = some child →
      (∃ para_root, child.beefy_mmr_store =
        mmrPush (mmr_size_from_number_of_leaves prev.beefy_mmr_leaves)
          prev.beefy_mmr_store
          (MMRNode.Data (prev.relay_header.number, headerHash prev.relay_header,
            para_root))) ∧
      child.beefy_mmr_leaves = prev.beefy_mmr_leaves + 1 ∧
      child.relay_header.number = prev.relay_header.number + 1) ∧
    (∀ bd, GeneratedBlock mmrPush mmrGetRoot headerHash encodeHeader trieRootOf
        genTrieProofFor sign encodeCommitment bd →
      bd.beefy_mmr_leaves + 1 = bd.relay_header.number ∧
      bd.beefy_mmr_leaves = bd.relay_header.number - 1) := by
  refine ⟨fun r ckv ckp flag nas prev child h =>
    create_child_fields mmrPush mmrGetRoot headerHash encodeHeader trieRootOf
      genTrieProofFor sign encodeCommitment r ckv ckp flag nas prev child h, ?_⟩
  intro bd hgen
  induction hgen with
  | genesis r ckv ckp flag auths bd0 hcreate =>
    obtain ⟨_, h1, h2⟩ := create_genesis_fields mmrPush mmrGetRoot headerHash
      encodeHeader trieRootOf genTrieProofFor sign encodeCommitment r ckv ckp
      flag auths bd0 hcreate
    rw [h1, h2]
    exact ⟨rfl, rfl⟩
  | child r ckv ckp flag nas prev bd0 hprev hcreate ih =>
    obtain ⟨_, hleaves, hnum⟩ := create_child_fields mmrPush mmrGetRoot
      headerHash encodeHeader trieRootOf genTrieProofFor sign encodeCommitment
      r ckv ckp flag nas prev bd0 hcreate
    obtain ⟨ih1, ih2⟩ := ih
    rw [hleaves, hnum]
    omega

/-- Store push stand-in for witnesses: append at the end (positions are
list indices). -/
def pushApp : Nat → MemStore → MMRNode LeafData HashOut → MemStore :=
  fun _ st n => st ++ [n]

/-- Trie root stand-in for witnesses. -/
def trieRoot0 : List (HashOut × Bytes) → HashOut := fun _ => 0

/-- Trie proof generation stand-in for witnesses. -/
def genProof0 : List (HashOut × Bytes) → HashOut → List Bytes := fun _ _ => []

/-- Signing stand-in for witnesses. -/
def sign0 : PairSecret → Bytes → AuthoritySignature := fun _ _ => 0

/-- C9 witness: a concrete genesis and one generated child; the child has
one leaf — the parent's number and hash — pushed on the empty store, leaf
count 1 and relay number 2, so the lag invariant holds on it. -/
theorem generator_lag_witness :
    ∃ g c : BlockData,
      create_random_child_block pushApp rootOk0 hh0 eh0 trieRoot0 genProof0
        sign0 encC 0 ([], []) [] none false (some [(0, 9)]) = some g ∧
      create_random_child_block pushApp rootOk0 hh0 eh0 trieRoot0 genProof0
        sign0 encC 0 ([], []) [] (some g) false none = some c ∧
      g.beefy_mmr_leaves = 0 ∧ g.relay_header.number = 1 ∧
      c.beefy_mmr_store = [MMRNode.Data (1, 0, 0)] ∧
      c.beefy_mmr_leaves = 1 ∧ c.relay_header.number = 2 := by
  exact ⟨_, _, rfl, rfl, rfl, rfl, rfl, rfl, rfl⟩
